import Mathlib

/-! Shallow embedding of `src/app.py`: a FastAPI service that accepts an
uploaded PDF, extracts its text with PyMuPDF, stores the text in an
in-memory dict under the fixed key `"current_pdf"`, and answers questions
about the stored text by one synchronous POST to the Domo completion API.

External collaborators are modelled as oracle values passed to the handlers:

* PyMuPDF (`fitz.open` followed by per-page `get_text`) is modelled by
  `PdfParse`: either the list of per-page texts of a parseable document in
  page order, or a parse failure carrying its message.
* The Domo endpoint is modelled by `ProviderResponse`: a transport-level
  failure raising `requests.exceptions.RequestException` (`transportError`),
  a successful status whose body fails JSON decoding (`notJson`; since
  requests 2.27 the resulting `JSONDecodeError` is a subclass of
  `RequestException` and is therefore caught by the same handler), or a
  successful status whose body decodes to a JSON object, modelled as its
  list of string fields (`json`).

Each handler returns its HTTP outcome (`Except HTTPException result`), the
possibly updated store, and a trace of boundary events: reading the request
body, invoking the PDF extractor, and calling the completion provider with a
given payload. The trace makes properties of the form "never reads the body"
or "never calls the provider" directly statable. -/

namespace DomoPdf

/-- `fastapi.HTTPException`: an HTTP error response with a status code and a
detail message. -/
structure HTTPException where
  status_code : Nat
  detail : String
  deriving DecidableEq

/-- Outcome of running the PDF library on a byte stream: either the per-page
texts in stored page order, or a parse error with a human-readable message. -/
inductive PdfParse where
  | ok (pages : List String)
  | err (msg : String)
  deriving DecidableEq

/-- `pdf_storage`: the in-memory dict mapping an identifier to extracted
text, modelled extensionally as a partial map. -/
abbrev Store := String → Option String

/-- Python dict assignment `d[k] = v`: unconditional upsert. -/
def Store.put (s : Store) (k v : String) : Store :=
  fun k' => if k' = k then some v else s k'

/-- The initial store `pdf_storage = \x7b\x7d`. -/
def Store.empty : Store := fun _ => none

/-- An uploaded file, carrying its filename and what the PDF library does on
its byte content. -/
structure UploadFile where
  filename : String
  parse : PdfParse
  deriving DecidableEq

/-- The `Query` pydantic model of `/ask-question/`. -/
structure Query where
  question : String
  deriving DecidableEq

/-- The JSON body `payload` built by `query_domo_api`. -/
structure Payload where
  input : String
  model : String
  system : String
  deriving DecidableEq

/-- Behaviour of the Domo endpoint on one outbound call (see the module
comment for the correspondence with `requests` exceptions). -/
inductive ProviderResponse where
  | transportError (msg : String)
  | notJson (decodeErrMsg : String)
  | json (fields : List (String × String))
  deriving DecidableEq

/-- Observable boundary events of one request handler run. -/
inductive Event where
  | readBytes
  | extractCalled
  | providerCalled (payload : Payload)
  deriving DecidableEq

/-- `extract_text_from_pdf`: joins the per-page texts with a newline, or
translates the parse failure into a 400 `HTTPException`. -/
def extract_text_from_pdf (parse : PdfParse) : Except HTTPException String :=
  match parse with
  | .ok pages => .ok (String.intercalate "\n" pages)
  | .err e => .error ⟨400, "Error processing PDF: " ++ e⟩

/-- The request body built by `query_domo_api`: the question as `input`, the
fixed model name, and the system template with the document text
interpolated. -/
def mkPayload (question context : String) : Payload where
  input := question
  model := "domo.domo_ai.domogpt-chat-small-v1:anthropic"
  system := "You are a chatbot that answers questions based on the following PDF text: " ++ context ++ ". Provide concise answers, limited to 3-4 lines, ensuring clarity and relevance."

/-- `query_domo_api`: posts the payload once and translates the outcome.
A `RequestException` (connection error, `raise_for_status`, or JSON decode
failure) becomes a 500 carrying the cause text; a decoded body without an
`output` field becomes a 500 "Unexpected response from Domo API"; otherwise
the `output` field is returned. The trace records the provider call with the
payload that was sent. -/
def query_domo_api (question context : String) (resp : ProviderResponse) :
    Except HTTPException String × List Event :=
  let payload := mkPayload question context
  match resp with
  | .transportError msg =>
      (.error ⟨500, "Error calling Domo API: " ++ msg⟩, [.providerCalled payload])
  | .notJson msg =>
      (.error ⟨500, "Error calling Domo API: " ++ msg⟩, [.providerCalled payload])
  | .json fields =>
      match List.lookup "output" fields with
      | none => (.error ⟨500, "Unexpected response from Domo API"⟩, [.providerCalled payload])
      | some out => (.ok out, [.providerCalled payload])

/-- Python `s.endswith(suf)`: suffix test on the sequence of code points,
case-sensitive, no normalisation. -/
def endswith (s suf : String) : Bool :=
  suf.data.isSuffixOf s.data

/-- Success body of `/upload-pdf/`. -/
structure UploadResponse where
  message : String
  text_length : Nat
  deriving DecidableEq

/-- `upload_pdf`: rejects a filename not ending in ".pdf" before reading any
bytes; otherwise reads the body, extracts the text, stores it under the key
"current_pdf", and reports the text length. -/
def upload_pdf (file : UploadFile) (store : Store) :
    Except HTTPException UploadResponse × Store × List Event :=
  if !endswith file.filename ".pdf" then
    (.error ⟨400, "File must be a PDF"⟩, store, [])
  else
    match extract_text_from_pdf file.parse with
    | .ok pdf_text =>
        (.ok ⟨"PDF processed successfully", pdf_text.length⟩,
          store.put "current_pdf" pdf_text, [.readBytes, .extractCalled])
    | .error e => (.error e, store, [.readBytes, .extractCalled])

/-- Success body of `/ask-question/`. -/
structure AskResponse where
  answer : String
  deriving DecidableEq

/-- `ask_question`: 400 if no document was ever stored; otherwise delegates
to `query_domo_api` with the stored text, wrapping a successful answer and
propagating an `HTTPException` unchanged. The store is never written. -/
def ask_question (query : Query) (store : Store) (resp : ProviderResponse) :
    Except HTTPException AskResponse × Store × List Event :=
  match store "current_pdf" with
  | none => (.error ⟨400, "Please upload a PDF first"⟩, store, [])
  | some ctx =>
      let r := query_domo_api query.question ctx resp
      (r.1.map fun out => (⟨out⟩ : AskResponse), store, r.2)

/-- The `GET /` handler: a static message, no store access. -/
def root (store : Store) : String × Store :=
  ("Welcome to PDF Analysis API. Use /upload-pdf/ to upload a PDF and /ask-question/ to ask questions about it.", store)

/-- The session store holds no key other than the constant "current_pdf". -/
def storeInv (s : Store) : Prop :=
  ∀ k, k ≠ "current_pdf" → s k = none

/-- Claim C1: for every well-formed PDF byte stream (a parse yielding the
per-page texts `pages`) and accepted filename, a successful upload stores
exactly the concatenation of the per-page texts joined with a newline under
the key "current_pdf", and the response `text_length` equals the length of
that joined string. -/
theorem upload_stores_joined_pages (file : UploadFile) (store : Store)
    (pages : List String)
    (hname : endswith file.filename ".pdf" = true)
    (hparse : file.parse = PdfParse.ok pages) :
    (upload_pdf file store).1
        = Except.ok ⟨"PDF processed successfully", (String.intercalate "\n" pages).length⟩
      ∧ (upload_pdf file store).2.1 "current_pdf" = some (String.intercalate "\n" pages) := by
  simp [upload_pdf, extract_text_from_pdf, hname, hparse, Store.put]

/-- Witness for C1: upload of a concrete two-page document. -/
theorem upload_stores_joined_pages_witness :
    (upload_pdf ⟨"a.pdf", .ok ["page one", "page two"]⟩ Store.empty).1
        = Except.ok ⟨"PDF processed successfully",
            (String.intercalate "\n" ["page one", "page two"]).length⟩
      ∧ (upload_pdf ⟨"a.pdf", .ok ["page one", "page two"]⟩ Store.empty).2.1 "current_pdf"
        = some (String.intercalate "\n" ["page one", "page two"]) :=
  upload_stores_joined_pages ⟨"a.pdf", .ok ["page one", "page two"]⟩ Store.empty
    ["page one", "page two"] (by decide) rfl

/-- Claim C2: with a stored document text `D` and question `Q`, every ask
sends exactly one provider call whose request body has `Q` verbatim as its
`input` field, the fixed model name, and the fixed system template with `D`
interpolated; and on a provider JSON response carrying an `output` field the
returned answer equals that field. -/
theorem ask_payload_and_answer (D Q out : String) (store : Store)
    (fields : List (String × String)) (resp : ProviderResponse)
    (hD : store "current_pdf" = some D)
    (hout : List.lookup "output" fields = some out) :
    (ask_question ⟨Q⟩ store resp).2.2 = [Event.providerCalled (mkPayload Q D)]
      ∧ (mkPayload Q D).input = Q
      ∧ (mkPayload Q D).model = "domo.domo_ai.domogpt-chat-small-v1:anthropic"
      ∧ (mkPayload Q D).system
        = "You are a chatbot that answers questions based on the following PDF text: "
          ++ D ++ ". Provide concise answers, limited to 3-4 lines, ensuring clarity and relevance."
      ∧ (ask_question ⟨Q⟩ store (ProviderResponse.json fields)).1 = Except.ok ⟨out⟩ := by
  refine ⟨?_, rfl, rfl, rfl, ?_⟩
  · cases resp with
    | transportError msg => simp [ask_question, hD, query_domo_api]
    | notJson msg => simp [ask_question, hD, query_domo_api]
    | json fs =>
        cases h : List.lookup "output" fs <;>
          simp [ask_question, hD, query_domo_api, h]
  · simp [ask_question, hD, query_domo_api, hout, Except.map]

/-- Witness for C2: a concrete store, question and provider response. -/
theorem ask_payload_and_answer_witness :
    (ask_question ⟨"What?"⟩ (Store.empty.put "current_pdf" "the doc")
        (ProviderResponse.json [("output", "It says hi.")])).2.2
        = [Event.providerCalled (mkPayload "What?" "the doc")]
      ∧ (mkPayload "What?" "the doc").input = "What?"
      ∧ (mkPayload "What?" "the doc").model = "domo.domo_ai.domogpt-chat-small-v1:anthropic"
      ∧ (mkPayload "What?" "the doc").system
        = "You are a chatbot that answers questions based on the following PDF text: "
          ++ "the doc" ++ ". Provide concise answers, limited to 3-4 lines, ensuring clarity and relevance."
      ∧ (ask_question ⟨"What?"⟩ (Store.empty.put "current_pdf" "the doc")
          (ProviderResponse.json [("output", "It says hi.")])).1 = Except.ok ⟨"It says hi."⟩ :=
  ask_payload_and_answer "the doc" "What?" "It says hi."
    (Store.empty.put "current_pdf" "the doc") [("output", "It says hi.")]
    (ProviderResponse.json [("output", "It says hi.")]) (by simp [Store.put]) (by decide)

/-- Claim C3: when the store holds no entry for "current_pdf", every ask
yields a 400 telling the caller to upload first, and the completion provider
is never called (the event trace is empty). -/
theorem ask_without_upload (q : Query) (store : Store) (resp : ProviderResponse)
    (h : store "current_pdf" = none) :
    (ask_question q store resp).1 = Except.error ⟨400, "Please upload a PDF first"⟩
      ∧ (ask_question q store resp).2.2 = []
      ∧ ∀ p, Event.providerCalled p ∉ (ask_question q store resp).2.2 := by
  simp [ask_question, h]

/-- Witness for C3: asking on the initial empty store. -/
theorem ask_without_upload_witness :
    (ask_question ⟨"hi"⟩ Store.empty (ProviderResponse.json [])).1
        = Except.error ⟨400, "Please upload a PDF first"⟩
      ∧ (ask_question ⟨"hi"⟩ Store.empty (ProviderResponse.json [])).2.2 = []
      ∧ ∀ p, Event.providerCalled p ∉ (ask_question ⟨"hi"⟩ Store.empty (ProviderResponse.json [])).2.2 :=
  ask_without_upload ⟨"hi"⟩ Store.empty (ProviderResponse.json []) rfl

/-- Claim C4: a filename not ending in ".pdf" is rejected with 400 before the
body is read: the store is unchanged and the trace shows neither a body read
nor an extractor invocation. -/
theorem upload_wrong_extension (file : UploadFile) (store : Store)
    (h : endswith file.filename ".pdf" = false) :
    (upload_pdf file store).1 = Except.error ⟨400, "File must be a PDF"⟩
      ∧ (upload_pdf file store).2.2 = []
      ∧ Event.readBytes ∉ (upload_pdf file store).2.2
      ∧ Event.extractCalled ∉ (upload_pdf file store).2.2
      ∧ (upload_pdf file store).2.1 = store := by
  simp [upload_pdf, h]

/-- Witness for C4: uploading a file named "notes.txt". -/
theorem upload_wrong_extension_witness :
    (upload_pdf ⟨"notes.txt", .ok ["p"]⟩ Store.empty).1
        = Except.error ⟨400, "File must be a PDF"⟩
      ∧ (upload_pdf ⟨"notes.txt", .ok ["p"]⟩ Store.empty).2.2 = []
      ∧ Event.readBytes ∉ (upload_pdf ⟨"notes.txt", .ok ["p"]⟩ Store.empty).2.2
      ∧ Event.extractCalled ∉ (upload_pdf ⟨"notes.txt", .ok ["p"]⟩ Store.empty).2.2
      ∧ (upload_pdf ⟨"notes.txt", .ok ["p"]⟩ Store.empty).2.1 = Store.empty :=
  upload_wrong_extension ⟨"notes.txt", .ok ["p"]⟩ Store.empty (by decide)

/-- Claim C5: two successful uploads to the slot overwrite: after the first
the slot holds the first joined text, after the second it holds the second,
and a subsequent ask calls the provider with a payload built from the second
text only. -/
theorem reupload_overwrites (store : Store) (f1 f2 : UploadFile)
    (pages1 pages2 : List String) (q : Query) (resp : ProviderResponse)
    (h1 : endswith f1.filename ".pdf" = true) (hp1 : f1.parse = PdfParse.ok pages1)
    (h2 : endswith f2.filename ".pdf" = true) (hp2 : f2.parse = PdfParse.ok pages2) :
    (upload_pdf f1 store).2.1 "current_pdf" = some (String.intercalate "\n" pages1)
      ∧ (upload_pdf f2 (upload_pdf f1 store).2.1).2.1 "current_pdf"
        = some (String.intercalate "\n" pages2)
      ∧ (ask_question q (upload_pdf f2 (upload_pdf f1 store).2.1).2.1 resp).2.2
        = [Event.providerCalled (mkPayload q.question (String.intercalate "\n" pages2))] := by
  have e1 : (upload_pdf f1 store).2.1 "current_pdf" = some (String.intercalate "\n" pages1) := by
    simp [upload_pdf, extract_text_from_pdf, h1, hp1, Store.put]
  have e2 : (upload_pdf f2 (upload_pdf f1 store).2.1).2.1 "current_pdf"
      = some (String.intercalate "\n" pages2) := by
    simp [upload_pdf, extract_text_from_pdf, h2, hp2, Store.put]
  refine ⟨e1, e2, ?_⟩
  cases resp with
  | transportError msg => simp [ask_question, e2, query_domo_api]
  | notJson msg => simp [ask_question, e2, query_domo_api]
  | json fs =>
      cases h : List.lookup "output" fs <;>
        simp [ask_question, e2, query_domo_api, h]

/-- Witness for C5: two concrete uploads followed by an ask. -/
theorem reupload_overwrites_witness :
    (upload_pdf ⟨"a.pdf", .ok ["v one"]⟩ Store.empty).2.1 "current_pdf"
        = some (String.intercalate "\n" ["v one"])
      ∧ (upload_pdf ⟨"b.pdf", .ok ["v two"]⟩
          (upload_pdf ⟨"a.pdf", .ok ["v one"]⟩ Store.empty).2.1).2.1 "current_pdf"
        = some (String.intercalate "\n" ["v two"])
      ∧ (ask_question ⟨"q"⟩ (upload_pdf ⟨"b.pdf", .ok ["v two"]⟩
          (upload_pdf ⟨"a.pdf", .ok ["v one"]⟩ Store.empty).2.1).2.1
          (ProviderResponse.json [("output", "a")])).2.2
        = [Event.providerCalled (mkPayload "q" (String.intercalate "\n" ["v two"]))] :=
  reupload_overwrites Store.empty ⟨"a.pdf", .ok ["v one"]⟩ ⟨"b.pdf", .ok ["v two"]⟩
    ["v one"] ["v two"] ⟨"q"⟩ (ProviderResponse.json [("output", "a")])
    (by decide) rfl (by decide) rfl

/-- Counterexample to claim C6 as stated: with a stored document, a provider
body that fails JSON decoding is caught as a `RequestException` and yields a
500 whose detail is the upstream-call-failed message carrying the decode
error, not the "Unexpected response from Domo API" message the claim
requires for the non-JSON case. -/
theorem nonjson_gives_upstream_failure_message :
    (ask_question ⟨"q"⟩ (Store.empty.put "current_pdf" "doc")
        (ProviderResponse.notJson "Expecting value: line 1 column 1 (char 0)")).1
      = Except.error ⟨500, "Error calling Domo API: Expecting value: line 1 column 1 (char 0)"⟩
      ∧ ("Error calling Domo API: Expecting value: line 1 column 1 (char 0)"
          ≠ "Unexpected response from Domo API") := by
  constructor
  · simp [ask_question, query_domo_api, Store.put, Store.empty, Except.map]
  · decide

/-- Claim C6 as amended: with a stored document, a non-JSON provider body
yields 500 with the upstream-call-failed message carrying the decode error
text, and a JSON body lacking `output` yields 500 with the "Unexpected
response from Domo API" message; in both cases the response is one of these
fixed messages, never a passthrough of the upstream body. -/
theorem provider_bad_body_500 (D Q msg : String) (store : Store)
    (fields : List (String × String))
    (hD : store "current_pdf" = some D)
    (hout : List.lookup "output" fields = none) :
    (ask_question ⟨Q⟩ store (ProviderResponse.notJson msg)).1
        = Except.error ⟨500, "Error calling Domo API: " ++ msg⟩
      ∧ (ask_question ⟨Q⟩ store (ProviderResponse.json fields)).1
        = Except.error ⟨500, "Unexpected response from Domo API"⟩ := by
  constructor
  · simp [ask_question, hD, query_domo_api, Except.map]
  · simp [ask_question, hD, query_domo_api, hout, Except.map]

/-- Witness for amended C6: concrete store and provider responses. -/
theorem provider_bad_body_500_witness :
    (ask_question ⟨"q"⟩ (Store.empty.put "current_pdf" "doc")
        (ProviderResponse.notJson "bad body")).1
        = Except.error ⟨500, "Error calling Domo API: " ++ "bad body"⟩
      ∧ (ask_question ⟨"q"⟩ (Store.empty.put "current_pdf" "doc")
          (ProviderResponse.json [("result", "x")])).1
        = Except.error ⟨500, "Unexpected response from Domo API"⟩ :=
  provider_bad_body_500 "doc" "q" "bad body" (Store.empty.put "current_pdf" "doc")
    [("result", "x")] (by simp [Store.put]) (by decide)

/-- Claim C7: a transport-level failure of the outbound call (an exception
from the POST itself or from the status check) yields a 500 whose detail is
the upstream-call-failed message carrying the underlying cause text. -/
theorem transport_failure_500 (D Q msg : String) (store : Store)
    (hD : store "current_pdf" = some D) :
    (ask_question ⟨Q⟩ store (ProviderResponse.transportError msg)).1
      = Except.error ⟨500, "Error calling Domo API: " ++ msg⟩ := by
  simp [ask_question, hD, query_domo_api, Except.map]

/-- Witness for C7: a concrete connection error. -/
theorem transport_failure_500_witness :
    (ask_question ⟨"q"⟩ (Store.empty.put "current_pdf" "doc")
        (ProviderResponse.transportError "Connection refused")).1
      = Except.error ⟨500, "Error calling Domo API: " ++ "Connection refused"⟩ :=
  transport_failure_500 "doc" "q" "Connection refused"
    (Store.empty.put "current_pdf" "doc") (by simp [Store.put])

/-- Claim C8: an upload whose bytes fail PDF extraction returns the 400
parse error and leaves the session store unchanged, so every subsequent ask
behaves exactly as it would have on the previous store. -/
theorem failed_parse_preserves_store (file : UploadFile) (store : Store) (e : String)
    (hname : endswith file.filename ".pdf" = true)
    (hparse : file.parse = PdfParse.err e) :
    (upload_pdf file store).1 = Except.error ⟨400, "Error processing PDF: " ++ e⟩
      ∧ (upload_pdf file store).2.1 = store
      ∧ ∀ q resp, ask_question q (upload_pdf file store).2.1 resp = ask_question q store resp := by
  have hs : (upload_pdf file store).2.1 = store := by
    simp [upload_pdf, extract_text_from_pdf, hname, hparse]
  exact ⟨by simp [upload_pdf, extract_text_from_pdf, hname, hparse], hs,
    fun q resp => by rw [hs]⟩

/-- Witness for C8: a malformed upload over a store holding a document. -/
theorem failed_parse_preserves_store_witness :
    (upload_pdf ⟨"bad.pdf", .err "cannot open broken document"⟩
        (Store.empty.put "current_pdf" "old text")).1
        = Except.error ⟨400, "Error processing PDF: " ++ "cannot open broken document"⟩
      ∧ (upload_pdf ⟨"bad.pdf", .err "cannot open broken document"⟩
          (Store.empty.put "current_pdf" "old text")).2.1
        = Store.empty.put "current_pdf" "old text"
      ∧ ∀ q resp, ask_question q (upload_pdf ⟨"bad.pdf", .err "cannot open broken document"⟩
          (Store.empty.put "current_pdf" "old text")).2.1 resp
        = ask_question q (Store.empty.put "current_pdf" "old text") resp :=
  failed_parse_preserves_store ⟨"bad.pdf", .err "cannot open broken document"⟩
    (Store.empty.put "current_pdf" "old text") "cannot open broken document"
    (by decide) rfl

/-- Claim C9: every handler preserves the invariant that the store holds at
most the single key "current_pdf": upload writes no key other than
"current_pdf", and ask and root return the store unchanged. -/
theorem operations_preserve_single_slot (s : Store) (f : UploadFile) (q : Query)
    (r : ProviderResponse) (hs : storeInv s) :
    storeInv (upload_pdf f s).2.1
      ∧ (∀ k, k ≠ "current_pdf" → (upload_pdf f s).2.1 k = s k)
      ∧ (ask_question q s r).2.1 = s
      ∧ (root s).2 = s := by
  have hup : ∀ k, k ≠ "current_pdf" → (upload_pdf f s).2.1 k = s k := by
    intro k hk
    cases h : endswith f.filename ".pdf" with
    | false => simp [upload_pdf, h]
    | true =>
        cases hp : f.parse with
        | ok pages => simp [upload_pdf, extract_text_from_pdf, h, hp, Store.put, hk]
        | err e => simp [upload_pdf, extract_text_from_pdf, h, hp]
  have hask : (ask_question q s r).2.1 = s := by
    cases h : s "current_pdf" <;> simp [ask_question, h]
  exact ⟨fun k hk => (hup k hk).trans (hs k hk), hup, hask, rfl⟩

/-- Witness for C9: the three handlers run from the empty initial store. -/
theorem operations_preserve_single_slot_witness :
    storeInv (upload_pdf ⟨"a.pdf", .ok ["p"]⟩ Store.empty).2.1
      ∧ (∀ k, k ≠ "current_pdf" →
          (upload_pdf ⟨"a.pdf", .ok ["p"]⟩ Store.empty).2.1 k = Store.empty k)
      ∧ (ask_question ⟨"q"⟩ Store.empty (ProviderResponse.transportError "down")).2.1 = Store.empty
      ∧ (root Store.empty).2 = Store.empty :=
  operations_preserve_single_slot Store.empty ⟨"a.pdf", .ok ["p"]⟩ ⟨"q"⟩
    (ProviderResponse.transportError "down") (fun _ _ => rfl)

/-- Claim C10: the filename check is case-sensitive on the literal lowercase
suffix ".pdf": the uploads rejected with the 400 extension error and an
empty trace are exactly those whose filename does not end with ".pdf"; in
particular "doc.PDF" does not end with ".pdf" and is always rejected without
invoking extraction. -/
theorem extension_check_case_sensitive (file : UploadFile) (store : Store) :
    (((upload_pdf file store).1 = Except.error ⟨400, "File must be a PDF"⟩
        ∧ (upload_pdf file store).2.2 = [])
      ↔ endswith file.filename ".pdf" = false)
    ∧ endswith "doc.PDF" ".pdf" = false
    ∧ ∀ parse s, (upload_pdf ⟨"doc.PDF", parse⟩ s).1
          = Except.error ⟨400, "File must be a PDF"⟩
        ∧ Event.extractCalled ∉ (upload_pdf ⟨"doc.PDF", parse⟩ s).2.2 := by
  have hn : endswith "doc.PDF" ".pdf" = false := by decide
  refine ⟨?_, hn, fun parse s => by simp [upload_pdf, hn]⟩
  cases h : endswith file.filename ".pdf" with
  | false => simp [upload_pdf, h]
  | true =>
      cases hp : file.parse with
      | ok pages => simp [upload_pdf, extract_text_from_pdf, h, hp]
      | err e => simp [upload_pdf, extract_text_from_pdf, h, hp]

end DomoPdf
